import Mathlib

/-!
Shallow embedding of the control-binding and state-synchronization engine of
the `@10up/Audio` widget (`src/src/audio.js`; of the two revisions in that
file we embed the second one, the revision that carries the scrubber,
`getTimeFormat`, `maybeScrubbing` and the `data-player-click` /
`data-player-change` attributes, which is the revision the claims point at).

Modelling conventions:
* Media timestamps (`currentTime`, `duration`, the stored `time` field) are
  modelled as natural numbers of seconds.  On natural inputs JavaScript's
  `Math.floor(a / b)` is natural division and `a % b` is the natural
  remainder, so the floors of the source are folded into `Nat` arithmetic.
* Volumes are rationals.
* JavaScript truthiness is modelled per value shape: `null` and `undefined`
  are falsy, a string is truthy iff it is nonempty, a number is truthy iff it
  is nonzero, a function is truthy.
* DOM attributes hold strings: `setAttribute(k, true)` stores the string
  "true" and `setAttribute(k, false)` stores the string "false" (a nonempty,
  hence truthy, string); `getAttribute` of an absent attribute yields `null`.
* `localStorage` is a key-value map from media-source URI to the stored
  record, modelled as an association list whose head entry shadows older
  entries (`setItem` prepends, `getItem` takes the first match, which gives
  the last-write-wins overwrite semantics of the real API).  The JSON round
  trip of `{time, volume, paused}` is the identity on the record.
* A thrown `TypeError` is modelled by an explicit `threw` flag or an
  `Except` error value; event handlers that complete report `threw = false`.
-/

/-- State of one native `<audio>` element, restricted to the fields the
widget reads or writes: `currentSrc`, `currentTime`, `duration`, `volume`,
`paused`, `muted`, and the `data-was-playing` attribute used by
`maybeScrubbing` (an attribute is an optional string). -/
structure Player where
  src : String
  currentTime : ℕ
  duration : ℕ
  volume : ℚ
  paused : Bool
  muted : Bool
  wasPlaying : Option String
  deriving DecidableEq

/-- Native `player.play()`: resumes playback. -/
def nativePlay (p : Player) : Player := { p with paused := false }

/-- Native `player.pause()`: suspends playback. -/
def nativePause (p : Player) : Player := { p with paused := true }

/-- Truthiness of a `getAttribute` result: `null` (absent) is falsy, a
string is truthy iff nonempty.  Note `setAttribute(k, false)` stores the
nonempty string "false", which is truthy under this test. -/
def attrTruthy : Option String → Bool
  | none => false
  | some s => s != ""

/-- Value stored under a source key: the JSON object
`{time: number, volume: number, paused: boolean}` written by
`saveToStorage`.  The JSON stringify/parse round trip is the identity. -/
structure StoredRecord where
  time : ℕ
  volume : ℚ
  paused : Bool
  deriving DecidableEq

/-- The browser `localStorage`, restricted to the keys this widget touches. -/
abbrev Storage := List (String × StoredRecord)

/-- `localStorage.getItem(key)`: first matching entry or `null`. -/
def storageGet : Storage → String → Option StoredRecord
  | [], _ => none
  | (k, v) :: rest, key => if k = key then some v else storageGet rest key

/-- `localStorage.setItem(key, value)`: overwrite by shadowing (the new
entry is prepended and `storageGet` takes the first match). -/
def storageSet (st : Storage) (key : String) (v : StoredRecord) : Storage :=
  (key, v) :: st

/-- The record `saveToStorage` serializes for a player:
`{time: getCurrentTime, volume: getCurrentVolume, paused: getPaused}`. -/
def recordOf (p : Player) : StoredRecord :=
  { time := p.currentTime, volume := p.volume, paused := p.paused }

/-- Shape of a value held in a configuration slot (`this.settings[name]`):
`null`/absent, a string, a number, or a callable function. -/
inductive JSSlot where
  | nullV
  | strV (s : String)
  | numV (q : ℚ)
  | fnV
  deriving DecidableEq

/-- JavaScript truthiness of a configuration slot value. -/
def jsTruthy : JSSlot → Bool
  | JSSlot.nullV => false
  | JSSlot.strV s => s != ""
  | JSSlot.numV q => q != 0
  | JSSlot.fnV => true

/-- The check `'function' === typeof this.settings[eventName]`. -/
def jsIsFunction : JSSlot → Bool
  | JSSlot.fnV => true
  | _ => false

/-- A configuration viewed as the lookup `this.settings[eventName]`. -/
abbrev Config := String → JSSlot

/-- `customCallBackHandler(eventName)` (source lines 1014-1025): returns
`undefined` (here `none`) when `eventName` is falsy or not a string;
otherwise returns the closure
`player => settings[eventName] && typeof settings[eventName] === 'function'
&& settings[eventName](player)`.  The closure's result is `some p` when the
user callback was invoked with `p`, `none` when it was skipped. -/
def Audio.customCallBackHandler (cfg : Config) (eventName : Option String) :
    Option (Player → Option Player) :=
  match eventName with
  | none => none
  | some e =>
    if e = "" then none
    else some (fun p =>
      if jsTruthy (cfg e) && jsIsFunction (cfg e) then some p else none)

/-- Composite used at every call site of the source, which always invokes
the returned closure immediately on a nonempty literal event name:
`this.customCallBackHandler(name)(player)`.  (For a nonempty name the
handler is always defined, so the `none` fallback is unreachable at the
source's call sites.) -/
def runCallback (cfg : Config) (e : String) (p : Player) : Option Player :=
  match Audio.customCallBackHandler cfg (some e) with
  | none => none
  | some f => f p

/-- `saveToStorage(player)` (source lines 1033-1043): writes
`{time, volume, paused}` under `player.currentSrc`.  The body dereferences
`this.localStorage.setItem` without a null check, so with persistence
disabled (`this.localStorage === null`) the call throws a `TypeError`. -/
def Audio.saveToStorage (ls : Option Storage) (p : Player) :
    Except String Storage :=
  match ls with
  | none => Except.error "TypeError: this.localStorage is null"
  | some st => Except.ok (storageSet st p.src (recordOf p))

/-- `getHours(time)` (source lines 1049-1054): `time / 3600` when
`3600 <= time`, else `false` (here `none`).  The caller floors the quotient,
which for natural input is natural division, folded in here. -/
def Audio.getHours (time : ℕ) : Option ℕ :=
  if 3600 ≤ time then some (time / 3600) else none

/-- `getMinutes(time)` (source lines 1060-1065): `time / 60` when
`60 <= time`, else `false` (here `none`); the caller's floor is folded in. -/
def Audio.getMinutes (time : ℕ) : Option ℕ :=
  if 60 ≤ time then some (time / 60) else none

/-- `getTimeFormat(time)` (source lines 1072-1095), traced literally:
`Math.floor(false) = 0`, and the `|| ''` after the floored minutes turns a
zero minute count into the empty string; with an hour present the minutes
string is prefixed with the character "0" (not padded to width two). -/
def Audio.getTimeFormat (time : ℕ) : String :=
  match Audio.getHours time with
  | some h =>
    let hoursStr := toString h ++ ":"
    let m := (Audio.getMinutes (time % 3600)).getD 0
    let minutesStr := "0" ++ (if m = 0 then "" else toString m)
    let s := time % 3600 % 60
    let secondsStr := if s < 10 then ":0" ++ toString s else ":" ++ toString s
    hoursStr ++ minutesStr ++ secondsStr
  | none =>
    let m := (Audio.getMinutes time).getD 0
    let minutesStr := if m = 0 then "" else toString m
    let s := time % 60
    let secondsStr := if s < 10 then ":0" ++ toString s else ":" ++ toString s
    minutesStr ++ secondsStr

/-- `currentTime(player, value)` (source lines 1195-1197). -/
def Audio.currentTime (p : Player) (value : ℕ) : Player :=
  { p with currentTime := value }

/-- `volume(player, value)` (source lines 1205-1207). -/
def Audio.volume (p : Player) (value : ℚ) : Player :=
  { p with volume := value }

/-- `play(player)` (source lines 1214-1216): delegates to native play and
consults nothing else (in particular no configured callback). -/
def Audio.play (p : Player) : Player := nativePlay p

/-- `pause(player)` (source lines 1252-1254). -/
def Audio.pause (p : Player) : Player := nativePause p

/-- `seeking(player, value)` (source lines 1224-1226). -/
def Audio.seeking (p : Player) (value : ℕ) : Player :=
  { p with currentTime := value }

/-- `mute(player)` (source lines 1261-1263): toggles the native flag. -/
def Audio.mute (p : Player) : Player := { p with muted := !p.muted }

/-- `stop(player)` (source lines 1272-1276): native pause, reset the time
to 0, then one pass through the callback normalizer for `onstop`.  The
second component is `some q` iff the user `onstop` callback ran (exactly
once), with `q` the argument it received. -/
def Audio.stop (cfg : Config) (p : Player) : Player × Option Player :=
  let p1 := Audio.pause p
  let p2 := Audio.currentTime p1 0
  (p2, runCallback cfg "onstop" p2)

/-- `maybeScrubbing(e, player)` (source lines 1235-1245).  The same handler
is bound to both `mousedown` and `mouseup` on the container; it acts only
when the event target carries the scrubber class.  `setAttribute` stores the
strings "true" / "false". -/
def Audio.maybeScrubbing (targetIsScrubber : Bool) (p : Player) : Player :=
  if targetIsScrubber then
    if !p.paused then
      { p with wasPlaying := some "true", paused := true }
    else if attrTruthy p.wasPlaying then
      { p with wasPlaying := some "false", paused := false }
    else p
  else p

/-- Result of one run of `maybeInitFromStorage`. -/
structure InitFromStorageResult where
  storage : Option Storage
  player : Player
  threw : Bool
  deriving DecidableEq

/-- `maybeInitFromStorage(player)` (source lines 970-1004).  Guarded by
`if (!this.localStorage) return`.  When the key is absent the body runs
`this.saveToStorage(player)` (comment: "If no cache, make initial save")
and then falls through - there is no early return - to
`JSON.parse(cache)` with `cache === null`, which yields the value `null`,
and destructuring `{time, volume, paused}` from `null` throws a
`TypeError`.  When a record is present, its fields are applied in the order
time, volume, paused, each only when truthy. -/
def Audio.maybeInitFromStorage (ls : Option Storage) (p : Player) :
    InitFromStorageResult :=
  match ls with
  | none => { storage := none, player := p, threw := false }
  | some st =>
    let cache := storageGet st p.src
    let st2 := match cache with
      | none =>
        match Audio.saveToStorage (some st) p with
        | Except.ok s2 => s2
        | Except.error _ => st
      | some _ => st
    match cache with
    | none => { storage := some st2, player := p, threw := true }
    | some r =>
      let p1 := if r.time ≠ 0 then Audio.currentTime p r.time else p
      let p2 := if r.volume ≠ 0 then Audio.volume p1 r.volume else p1
      let p3 := if r.paused then Audio.pause p2 else p2
      { storage := some st2, player := p3, threw := false }

/-- Which of the optional custom controls are present in the container
(`element.querySelector` results in `timeupdateHandler`). -/
structure Controls where
  hasCurrentTime : Bool
  hasTotalTime : Bool
  hasScrubber : Bool
  deriving DecidableEq

/-- Observable outcome of one run of `timeupdateHandler`: the strings and
numbers written into the controls (when present), the storage after the
write-through, whether the user `ontimeupdate` callback ran and with which
argument, and whether the handler threw. -/
structure TimeupdateResult where
  currentTimeDisplay : Option String
  totalTimeDisplay : Option String
  scrubberValue : Option ℕ
  scrubberMax : Option ℕ
  storage : Option Storage
  callbackArg : Option Player
  threw : Bool
  deriving DecidableEq

/-- `timeupdateHandler(element, player)` (source lines 1103-1130): formats
current and total time, writes them into the timer controls when present,
sets the scrubber value to `Math.floor(currentTime)` and its `max`
attribute to `Math.floor(duration)` when the scrubber is present, then
calls `saveToStorage` (which throws when `this.localStorage` is null, in
which case the callback below it never runs), and finally invokes the
normalized `ontimeupdate` callback. -/
def Audio.timeupdateHandler (cfg : Config) (ctrls : Controls)
    (ls : Option Storage) (p : Player) : TimeupdateResult :=
  let currentTimeFormat := Audio.getTimeFormat p.currentTime
  let totalTimeFormat := Audio.getTimeFormat p.duration
  let cd := if ctrls.hasCurrentTime then some currentTimeFormat else none
  let td := if ctrls.hasTotalTime then some totalTimeFormat else none
  let sv := if ctrls.hasScrubber then some p.currentTime else none
  let sm := if ctrls.hasScrubber then some p.duration else none
  match Audio.saveToStorage ls p with
  | Except.error _ =>
    { currentTimeDisplay := cd, totalTimeDisplay := td, scrubberValue := sv,
      scrubberMax := sm, storage := ls, callbackArg := none, threw := true }
  | Except.ok st2 =>
    { currentTimeDisplay := cd, totalTimeDisplay := td, scrubberValue := sv,
      scrubberMax := sm, storage := some st2,
      callbackArg := runCallback cfg "ontimeupdate" p, threw := false }

/-- Observable outcome of one run of `volumechangeHandler`. -/
structure VolumechangeResult where
  sliderValue : Option ℚ
  callbackArg : Option Player
  deriving DecidableEq

/-- `volumechangeHandler(element, player, event)` (source lines 1139-1151):
reads `event.target.volume`; `if (!volume) return` exits before anything
else when the volume is zero; `if (!volumeSlider) return` exits when the
volume slider control is absent; only then is the slider value mirrored and
the normalized `onvolumechange` callback invoked. -/
def Audio.volumechangeHandler (cfg : Config) (eventVolume : ℚ)
    (sliderPresent : Bool) (p : Player) : VolumechangeResult :=
  if eventVolume = 0 then { sliderValue := none, callbackArg := none }
  else if !sliderPresent then { sliderValue := none, callbackArg := none }
  else { sliderValue := some eventVolume,
         callbackArg := runCallback cfg "onvolumechange" p }

/-- The seven operation names of the Action Dispatcher as enumerated by the
specification. -/
def dispatcherOperationNames : List String :=
  ["play", "pause", "stop", "mute", "seeking", "currentTime", "volume"]

/-- Every method declared on the `Audio` class of the embedded revision, in
source order, plus `constructor` (which `this["constructor"]` resolves to
through `Audio.prototype` as a function).  `addCustomEventHandler` looks
the action attribute up with dynamic property access `this[action]`, so
each of these names passes its `'function' === typeof this[action]` test. -/
def audioMethodNames : List String :=
  ["constructor", "log", "uid", "initialize", "addPlayButton",
   "addPauseButton", "maybeAddVolumeButton", "maybeAddStopButton",
   "maybeAddMuteButton", "maybeAddTimer", "maybeAddScrubber",
   "addCustomAudioControls", "addCustomEventHandler",
   "addCustomEventListeners", "addAllowedCustomCallbacks",
   "maybeInitFromStorage", "customCallBackHandler", "saveToStorage",
   "getHours", "getMinutes", "getTimeFormat", "timeupdateHandler",
   "volumechangeHandler", "getDuration", "getCurrentTime",
   "getCurrentVolume", "getPaused", "currentTime", "volume", "play",
   "seeking", "maybeScrubbing", "pause", "mute", "stop", "addTextTrack",
   "buttonFactory", "volumeFactory", "timerFactory", "scrubberFactory",
   "appendTemplate"]

/-- The function-valued properties every ordinary object inherits from
`Object.prototype` in a standard ECMAScript environment (data properties of
function type, including the Annex B legacy accessors-definers); dynamic
lookup `this[action]` resolves these through the prototype chain and they
pass the `'function' === typeof this[action]` test.  `__proto__` is not
listed: it is an accessor yielding `Audio.prototype`, an object, so its
`typeof` is not a function. -/
def objectPrototypeFunctionNames : List String :=
  ["hasOwnProperty", "isPrototypeOf", "propertyIsEnumerable",
   "toLocaleString", "toString", "valueOf", "__defineGetter__",
   "__defineSetter__", "__lookupGetter__", "__lookupSetter__"]

/-- The dispatch decision of `addCustomEventHandler(event, player)` (source
lines 899-910): the `data-player-click` / `data-player-change` attribute
value (`none` when the attribute is absent) leads to a method invocation
exactly when `action && this[action] && 'function' === typeof this[action]`
holds.  `this[action]` is dynamic property lookup through the prototype
chain, so it finds a function exactly for the class's declared methods
(with `constructor`) and the function-valued `Object.prototype`
inheritances; the instance fields (`className`, `name`, `prefix`,
`supportedNativeEvents`, `supportedCallbacks`, `settings`, `localStorage`)
are defined but are not functions, `__proto__` yields an object, and in a
standard environment (no extension of `Object.prototype`) every other name
resolves to `undefined`. -/
def Audio.addCustomEventHandlerDispatches (action : Option String) : Bool :=
  match action with
  | none => false
  | some a => (a != "") &&
      (audioMethodNames.contains a || objectPrototypeFunctionNames.contains a)

/-- The constructor argument as an arbitrary JavaScript value shape. -/
inductive JSArg where
  | undef
  | nullA
  | strA (s : String)
  | numA (q : ℚ)
  deriving DecidableEq

/-- JavaScript truthiness of a constructor argument. -/
def jsArgTruthy : JSArg → Bool
  | JSArg.undef => false
  | JSArg.nullA => false
  | JSArg.strA s => s != ""
  | JSArg.numA q => q != 0

/-- The check `'string' === typeof selector`. -/
def jsArgIsString : JSArg → Bool
  | JSArg.strA _ => true
  | _ => false

/-- For a string, `selector.indexOf('.') === 0` holds iff its first
character is the dot. -/
def startsWithDot (s : String) : Bool :=
  match s.data with
  | [] => false
  | c :: _ => c = '.'

/-- The constructor guard (source lines 667-671):
`!selector || 'string' !== typeof selector || 0 !== selector.indexOf('.')`. -/
def selectorRejected (selector : JSArg) : Bool :=
  !jsArgTruthy selector || !jsArgIsString selector ||
    (match selector with
     | JSArg.strA s => !startsWithDot s
     | _ => true)

/-- The widget settings, restricted to the single field `log` reads. -/
structure Settings where
  debug : Bool
  deriving DecidableEq

/-- `log(message, messageType)` (source lines 742-752): its first step is
the property access `this.settings.debug`.  Inside the constructor's guard
branch `this.settings` has not been assigned yet, so the access is made on
`undefined` and throws a `TypeError`; once `this.settings` exists the
method only writes to the console and cannot throw. -/
def Audio.log (settingsRef : Option Settings) : Except String Unit :=
  match settingsRef with
  | none => Except.error "TypeError: this.settings is undefined"
  | some _ => Except.ok ()

/-- Outcome of `new Audio(selector, options)`. -/
inductive ConstructResult where
  | threw
  | inert
  | initialized (className : String)
  deriving DecidableEq

/-- The constructor (source lines 664-734) up to the point the claims are
about: on a rejected selector it calls `this.log(...)` before
`this.settings` is assigned and returns afterwards; on an accepted selector
it proceeds to build the instance for that class name. -/
def Audio.construct (selector : JSArg) : ConstructResult :=
  if selectorRejected selector then
    match Audio.log none with
    | Except.error _ => ConstructResult.threw
    | Except.ok _ => ConstructResult.inert
  else
    match selector with
    | JSArg.strA s => ConstructResult.initialized s
    | _ => ConstructResult.inert

/-- A sample bound player used by concrete witnesses: source "song.mp3",
65 seconds elapsed of a 125 second track, full volume, playing. -/
def samplePlayer : Player :=
  { src := "song.mp3", currentTime := 65, duration := 125, volume := 1,
    paused := false, muted := false, wasPlaying := none }

/-- A container in which all optional controls were rendered. -/
def allControls : Controls :=
  { hasCurrentTime := true, hasTotalTime := true, hasScrubber := true }

/-- A configuration with a callable user callback in every slot. -/
def fnConfig : Config := fun _ => JSSlot.fnV

/-- The default configuration: every callback slot is `null`. -/
def nullConfig : Config := fun _ => JSSlot.nullV

/-! ## Helper lemmas -/

/-- A callable slot is truthy, so the normalizer's conjunction
`settings[e] && typeof settings[e] === 'function'` collapses to the
callability test alone. -/
theorem jsTruthy_of_isFunction (s : JSSlot) (h : jsIsFunction s = true) :
    jsTruthy s = true := by
  cases s <;> simp_all [jsIsFunction, jsTruthy]

/-- Evaluation of the call-site composite: for a nonempty event name the
normalizer invokes the configured callback with the player exactly when the
slot holds a function. -/
theorem runCallback_eval (cfg : Config) (e : String) (p : Player)
    (h : e ≠ "") :
    runCallback cfg e p =
      if jsIsFunction (cfg e) = true then some p else none := by
  by_cases hf : jsIsFunction (cfg e) = true
  · have ht := jsTruthy_of_isFunction (cfg e) hf
    simp [runCallback, Audio.customCallBackHandler, h, ht, hf]
  · rw [Bool.not_eq_true] at hf
    simp [runCallback, Audio.customCallBackHandler, h, hf]

/-! ## Claim theorems -/

/-- C1.  The claim says an invalid `selector` makes the constructor log a
configuration error and return without throwing.  In the code the guard
branch calls `this.log(...)` before `this.settings` is assigned, and `log`
begins with the property access `this.settings.debug`, so the constructor
throws a `TypeError` for every rejected selector: a string without a
leading dot, a missing argument, and a non-string value all throw, while a
valid class selector initializes normally. -/
theorem c1_invalid_selector_throws :
    Audio.construct (JSArg.strA "audio") = ConstructResult.threw ∧
    Audio.construct JSArg.undef = ConstructResult.threw ∧
    Audio.construct (JSArg.numA 5) = ConstructResult.threw ∧
    Audio.construct (JSArg.strA ".audio") =
      ConstructResult.initialized ".audio" := by
  decide

/-- C2 counterexample.  "log" is not one of the seven Action Dispatcher
operation names, yet an action attribute equal to "log" passes the dispatch
test of `addCustomEventHandler` (dynamic `this[action]` lookup), so a
method is invoked for it, contradicting the claim that only the seven
operation names lead to an invocation. -/
theorem c2_counterexample :
    Audio.addCustomEventHandlerDispatches (some "log") = true ∧
    dispatcherOperationNames.contains "log" = false := by
  decide

/-- C2 amended.  A delegated click/change event leads to a method
invocation exactly when its action attribute is a nonempty string that
dynamic property lookup `this[action]` resolves to a function: a declared
method of the `Audio` class (including `constructor`) or a function-valued
property inherited from `Object.prototype` (such as `toString`).  Every one
of the seven dispatcher operation names does dispatch and a missing
attribute never dispatches, but the set of dispatching names is the full
function-valued property table of the widget object, not only those
seven. -/
theorem c2_dispatch_amended :
    dispatcherOperationNames.all
      (fun a => Audio.addCustomEventHandlerDispatches (some a)) = true ∧
    Audio.addCustomEventHandlerDispatches none = false ∧
    Audio.addCustomEventHandlerDispatches (some "toString") = true ∧
    (∀ a, Audio.addCustomEventHandlerDispatches (some a) = true ↔
      ((a != "") = true ∧
        (audioMethodNames.contains a = true ∨
          objectPrototypeFunctionNames.contains a = true))) := by
  refine ⟨by decide, rfl, by decide, ?_⟩
  intro a
  simp [Audio.addCustomEventHandlerDispatches, Bool.or_eq_true]

/-- C2 witness: the amended theorem applied at the concrete operation name
"play". -/
theorem c2_dispatch_amended_witness :
    Audio.addCustomEventHandlerDispatches (some "play") = true := by
  exact (c2_dispatch_amended.2.2.2 "play").mpr (by decide)

/-- C3.  The claim (and the specification's round-trip examples) demand
`formatTime(0) = "0:00"` and two-digit zero padding of minutes whenever an
hour is present.  Tracing `getTimeFormat` shows the `|| ''` after the
floored minute count erases a zero minute field, and the hour branch
prefixes a single "0" instead of padding: the code renders 0 as ":00",
3600 as "1:0:00" and 4200 as "1:010:00", while the claim's other two
examples (65 and 3661) do come out as stated. -/
theorem c3_timeformat_divergence :
    Audio.getTimeFormat 0 = ":00" ∧
    Audio.getTimeFormat 65 = "1:05" ∧
    Audio.getTimeFormat 3661 = "1:01:01" ∧
    Audio.getTimeFormat 3600 = "1:0:00" ∧
    Audio.getTimeFormat 4200 = "1:010:00" := by
  decide

/-- C4.  The claim requires a pointer-up without a matching prior
pointer-down to be a no-op.  The code binds the same `maybeScrubbing`
handler to both `mousedown` and `mouseup` and branches only on
`player.paused`, so a lone mouseup on the scrubber of a playing player
pauses it and records `data-was-playing = "true"`.  Moreover the "clearing"
write `setAttribute("data-was-playing", false)` stores the nonempty string
"false", which remains truthy: after a down-up pair that resumed playback
the flag is still set under `getAttribute` truthiness. -/
theorem c4_mouseup_without_down_not_noop :
    (Audio.maybeScrubbing true samplePlayer).paused = true ∧
    (Audio.maybeScrubbing true samplePlayer).wasPlaying = some "true" ∧
    attrTruthy
      (Audio.maybeScrubbing true
        (Audio.maybeScrubbing true samplePlayer)).wasPlaying = true := by
  decide

/-- C5 counterexample.  With storage enabled but empty, handling
`loadstart` for a player with source "song.mp3" creates a record for that
source (the code's "If no cache, make initial save" branch) and then
throws a `TypeError` (destructuring `JSON.parse(null)`), contradicting the
claim that at load time the record is only read, never created, and that an
absent record causes no error. -/
theorem c5_counterexample :
    (Audio.maybeInitFromStorage (some []) samplePlayer).threw = true ∧
    storageGet
      ((Audio.maybeInitFromStorage (some []) samplePlayer).storage.getD [])
      "song.mp3" = some (recordOf samplePlayer) := by
  decide

/-- C5 amended.  On `loadstart` the widget attempts restore-from-storage:
with persistence disabled nothing happens; with a record present under the
player's resolved source it applies the stored time, then volume, then
pause state, each only when the stored field is truthy/non-zero, without
error and without writing; but when no record exists the handler first
writes an initial record for the source and then throws a `TypeError`
(destructuring the `null` parse of the absent cache), leaving the player's
state unchanged. -/
theorem c5_restore_amended :
    (∀ p, Audio.maybeInitFromStorage none p =
      { storage := none, player := p, threw := false }) ∧
    (∀ st p r, storageGet st p.src = some r →
      (Audio.maybeInitFromStorage (some st) p).threw = false ∧
      (Audio.maybeInitFromStorage (some st) p).storage = some st ∧
      (Audio.maybeInitFromStorage (some st) p).player.currentTime =
        (if r.time ≠ 0 then r.time else p.currentTime) ∧
      (Audio.maybeInitFromStorage (some st) p).player.volume =
        (if r.volume ≠ 0 then r.volume else p.volume) ∧
      (Audio.maybeInitFromStorage (some st) p).player.paused =
        (p.paused || r.paused)) ∧
    (∀ st p, storageGet st p.src = none →
      (Audio.maybeInitFromStorage (some st) p).threw = true ∧
      (Audio.maybeInitFromStorage (some st) p).player = p ∧
      (Audio.maybeInitFromStorage (some st) p).storage =
        some (storageSet st p.src (recordOf p))) := by
  refine ⟨fun p => rfl, ?_, ?_⟩
  · intro st p r hr
    by_cases ht : r.time = 0 <;>
      by_cases hv : r.volume = 0 <;>
        by_cases hp : r.paused = true <;>
          simp [Audio.maybeInitFromStorage, hr, ht, hv, hp,
            Audio.currentTime, Audio.volume, Audio.pause, nativePause]
  · intro st p hr
    simp [Audio.maybeInitFromStorage, hr, Audio.saveToStorage]

/-- C5 witness: the amended theorem applied to a present record with a
nonzero stored time, zero stored volume, and stored paused state, checking
the conditional application field by field. -/
theorem c5_restore_amended_witness :
    (Audio.maybeInitFromStorage
      (some [("song.mp3", { time := 40, volume := 0, paused := true })])
      samplePlayer).player.currentTime = 40 ∧
    (Audio.maybeInitFromStorage
      (some [("song.mp3", { time := 40, volume := 0, paused := true })])
      samplePlayer).player.volume = 1 ∧
    (Audio.maybeInitFromStorage
      (some [("song.mp3", { time := 40, volume := 0, paused := true })])
      samplePlayer).player.paused = true := by
  have h := (c5_restore_amended.2.1
    [("song.mp3", { time := 40, volume := 0, paused := true })]
    samplePlayer { time := 40, volume := 0, paused := true } (by decide))
  refine ⟨?_, ?_, ?_⟩
  · rw [h.2.2.1]; decide
  · rw [h.2.2.2.1]; decide
  · rw [h.2.2.2.2]; decide

/-- C6.  On a time-update with storage available, the handler completes
without throwing, renders the formatted current time into the current-time
control when it is present, sets the scrubber value to the (floored)
current time and its max to the (floored) duration when the scrubber is
present, writes `{time, volume, paused}` to storage under the player's
current source key, and invokes the configured `ontimeupdate` callback with
the player. -/
theorem c6_timeupdate_effects (cfg : Config) (ctrls : Controls)
    (st : Storage) (p : Player) :
    (Audio.timeupdateHandler cfg ctrls (some st) p).threw = false ∧
    (ctrls.hasCurrentTime = true →
      (Audio.timeupdateHandler cfg ctrls (some st) p).currentTimeDisplay =
        some (Audio.getTimeFormat p.currentTime)) ∧
    (ctrls.hasScrubber = true →
      (Audio.timeupdateHandler cfg ctrls (some st) p).scrubberValue =
          some p.currentTime ∧
        (Audio.timeupdateHandler cfg ctrls (some st) p).scrubberMax =
          some p.duration) ∧
    (Audio.timeupdateHandler cfg ctrls (some st) p).storage =
      some (storageSet st p.src (recordOf p)) ∧
    (jsIsFunction (cfg "ontimeupdate") = true →
      (Audio.timeupdateHandler cfg ctrls (some st) p).callbackArg =
        some p) := by
  refine ⟨?_, ?_, ?_, ?_, ?_⟩
  · simp [Audio.timeupdateHandler, Audio.saveToStorage]
  · intro h
    simp [Audio.timeupdateHandler, Audio.saveToStorage, h]
  · intro h
    simp [Audio.timeupdateHandler, Audio.saveToStorage, h]
  · simp [Audio.timeupdateHandler, Audio.saveToStorage]
  · intro h
    have hrc := runCallback_eval cfg "ontimeupdate" p (by decide)
    simp [Audio.timeupdateHandler, Audio.saveToStorage, hrc, h]

/-- C6 witness: the specification's end-to-end scenario - duration 125
seconds, elapsed 65 seconds, all controls present, callable `ontimeupdate`,
empty storage: the current-time control shows "1:05", the scrubber value is
65, and the persisted record for "song.mp3" has time 65. -/
theorem c6_timeupdate_effects_witness :
    (Audio.timeupdateHandler fnConfig allControls (some []) samplePlayer
      ).currentTimeDisplay = some "1:05" ∧
    (Audio.timeupdateHandler fnConfig allControls (some []) samplePlayer
      ).scrubberValue = some 65 ∧
    (storageGet
      ((Audio.timeupdateHandler fnConfig allControls (some [])
        samplePlayer).storage.getD []) "song.mp3").map StoredRecord.time =
      some 65 := by
  have h := c6_timeupdate_effects fnConfig allControls [] samplePlayer
  refine ⟨?_, ?_, ?_⟩
  · rw [h.2.1 (by decide)]; decide
  · exact (h.2.2.1 (by decide)).1
  · rw [h.2.2.2.1]; decide

/-- C7.  The claim says handling a time-update never throws, and that with
the `localStorage` option set to false the handler runs to completion,
skips the storage write, and still invokes the `ontimeupdate` callback.  In
the code `saveToStorage` dereferences `this.localStorage.setItem` without
the null guard `maybeInitFromStorage` has, so with storage disabled every
time-update throws a `TypeError` after updating the time displays and
before the callback can run. -/
theorem c7_timeupdate_throws_without_storage :
    (Audio.timeupdateHandler fnConfig allControls none samplePlayer).threw =
      true ∧
    (Audio.timeupdateHandler fnConfig allControls none samplePlayer
      ).callbackArg = none ∧
    (Audio.timeupdateHandler fnConfig allControls none samplePlayer
      ).currentTimeDisplay = some "1:05" := by
  decide

/-- C8.  For every nonempty event name the callback normalizer invokes the
configured callback with the player exactly when the configuration slot for
that name holds a callable value, and otherwise does nothing and raises no
error (the normalizer is total); independently, the `play` action calls
native playback without consulting any configured callback, so an absent
`onplay` does not prevent it. -/
theorem c8_callback_normalizer (cfg : Config) (e : String) (p : Player)
    (h : e ≠ "") :
    (runCallback cfg e p =
      if jsIsFunction (cfg e) = true then some p else none) ∧
    ((runCallback cfg e p).isSome = jsIsFunction (cfg e)) ∧
    (Audio.play p).paused = false := by
  have hrc := runCallback_eval cfg e p h
  refine ⟨hrc, ?_, rfl⟩
  rw [hrc]
  by_cases hf : jsIsFunction (cfg e) = true
  · simp [hf]
  · simp [hf]

/-- C8 witness: with every slot `null` the normalizer invokes nothing for
"onplay", yet the play action still resumes native playback. -/
theorem c8_callback_normalizer_witness :
    runCallback nullConfig "onplay" samplePlayer = none ∧
    (Audio.play samplePlayer).paused = false := by
  have h := c8_callback_normalizer nullConfig "onplay" samplePlayer
    (by decide)
  refine ⟨?_, h.2.2⟩
  rw [h.1]
  decide

/-- C9 counterexample.  A volume-change event reporting volume 0, with the
volume slider present and a callable `onvolumechange` configured: the
handler returns at `if (!volume) return` before reaching the callback, so
the callback is not invoked, contradicting the claim that the
`onvolumechange` callback is invoked on every volume-change event. -/
theorem c9_counterexample :
    (Audio.volumechangeHandler fnConfig 0 true samplePlayer).callbackArg =
      none ∧
    jsIsFunction (fnConfig "onvolumechange") = true := by
  decide

/-- C9 amended.  On a volume-change event the handler reads the native
volume from the event; when that volume is zero, or when the volume slider
control is absent, it returns early, touching nothing and invoking no
callback; only when the volume is non-zero and the slider is present does
it mirror the volume onto the slider and invoke the configured
`onvolumechange` callback. -/
theorem c9_volumechange_amended (cfg : Config) (v : ℚ) (sp : Bool)
    (p : Player) :
    ((Audio.volumechangeHandler cfg v sp p).sliderValue = some v ↔
      (v ≠ 0 ∧ sp = true)) ∧
    ((Audio.volumechangeHandler cfg v sp p).callbackArg.isSome = true ↔
      (v ≠ 0 ∧ sp = true ∧ jsIsFunction (cfg "onvolumechange") = true)) := by
  have hrc := runCallback_eval cfg "onvolumechange" p (by decide)
  by_cases hv : v = 0
  · subst hv
    simp [Audio.volumechangeHandler]
  · cases sp
    · simp [Audio.volumechangeHandler, hv]
    · by_cases hf : jsIsFunction (cfg "onvolumechange") = true <;>
        simp [Audio.volumechangeHandler, hv, hrc, hf]

/-- C9 witness: the amended theorem at volume one half with the slider
present and a callable callback - the slider is updated and the callback
runs. -/
theorem c9_volumechange_amended_witness :
    (Audio.volumechangeHandler fnConfig (1 / 2) true samplePlayer
      ).sliderValue = some (1 / 2) ∧
    (Audio.volumechangeHandler fnConfig (1 / 2) true samplePlayer
      ).callbackArg.isSome = true := by
  have h := c9_volumechange_amended fnConfig (1 / 2) true samplePlayer
  exact ⟨h.1.mpr ⟨by norm_num, rfl⟩, h.2.mpr ⟨by norm_num, rfl, rfl⟩⟩

/-- C10.  From every starting state, including already paused, the stop
operation pauses the player, resets its elapsed time to 0, and makes
exactly one pass through the callback normalizer for `onstop`, which
invokes the configured callback exactly once (with the stopped player) when
it is callable and not at all otherwise. -/
theorem c10_stop_effects (cfg : Config) (p : Player) :
    (Audio.stop cfg p).1.paused = true ∧
    (Audio.stop cfg p).1.currentTime = 0 ∧
    ((Audio.stop cfg p).2 = some (Audio.stop cfg p).1 ↔
      jsIsFunction (cfg "onstop") = true) := by
  have hrc := runCallback_eval cfg "onstop"
    (Audio.currentTime (Audio.pause p) 0) (by decide)
  refine ⟨rfl, rfl, ?_⟩
  by_cases hf : jsIsFunction (cfg "onstop") = true <;>
    simp [Audio.stop, hrc, hf]

/-- C10 witness: the theorem at a playing sample player with a callable
`onstop`: the result is paused at time 0 and the callback ran once with
that player. -/
theorem c10_stop_effects_witness :
    (Audio.stop fnConfig samplePlayer).1.paused = true ∧
    (Audio.stop fnConfig samplePlayer).1.currentTime = 0 ∧
    (Audio.stop fnConfig samplePlayer).2 =
      some (Audio.stop fnConfig samplePlayer).1 := by
  have h := c10_stop_effects fnConfig samplePlayer
  exact ⟨h.1, h.2.1, h.2.2.mpr rfl⟩
